import Mathlib

/-!
Shallow embedding of the `perf-event-open-sys` crate (`src/lib.rs`).

The crate is a pass-through FFI binding: one function `perf_event_open` that
issues the raw numbered system call through `libc::syscall`, and a family of
ioctl shims (module `ioctls`) generated by the `define_ioctl` macro, each of
which forwards its file descriptor and argument to `untyped_ioctl`, which in
turn calls `libc::ioctl` with the request code from the `bindings` module.

The embedding models the process state explicitly: the C `errno` variable, the
process memory (an abstract byte map, since the shims only hand pointers over
as opaque addresses), the binding's own global data (a type parameter `G`,
since the binding declares none and must be shown not to touch any), and a
trace of kernel entries issued.  The kernel itself is external: it is modelled
as an oracle `Kernel` giving the raw result of each system call and the reply
to each ioctl.  The C library entry points `libc::syscall` and `libc::ioctl`
and the generated `bindings` module are not part of `src/`; their definitions
below are modelled from the spec and carry doc comments saying so.
-/

namespace PerfEventOpenSys

/-- The Rust cast `as c_int` applied to a C `long` value: the value is reduced
modulo 2^32 and reinterpreted as a signed 32-bit integer. -/
def toCInt (r : Int) : Int := (r + 2 ^ 31) % 2 ^ 32 - 2 ^ 31

/-- Reduction of a C request value (an `int` sign-extended to `long`, or an
`unsigned long`) to the unsigned 32-bit command width at which the kernel
reads the ioctl request register. -/
def u32OfRequest (r : Int) : Nat := (r % 2 ^ 32).toNat

/-- One entry into the kernel issued by the binding: either a raw numbered
system call with its argument words, or an ioctl with its descriptor, its
command resolved at the kernel's 32-bit width, and its argument word. -/
inductive KernelEntry where
  | syscall (nr : Int) (args : List Int)
  | ioctlCall (fd : Int) (cmd : Nat) (arg : Int)

/-- The kernel's reply to one ioctl: an operation-defined non-negative value
on success, or a positive error code on failure; in both cases the kernel may
rewrite process memory (it alone does so through pointer arguments). -/
inductive KernelReply where
  | success (val : Nat) (memAfter : Nat → Nat)
  | failure (err : Int) (memAfter : Nat → Nat)

/-- The value a C `ioctl` call reports for a reply: the operation-defined
value on success, `-1` on failure. -/
def KernelReply.retval : KernelReply → Int
  | .success v _ => (v : Int)
  | .failure _ _ => -1

/-- The C `errno` value after an ioctl reply, given its value before: set to
the error code on failure, untouched on success. -/
def KernelReply.errnoAfter (e0 : Int) : KernelReply → Int
  | .success _ _ => e0
  | .failure e _ => e

/-- The process memory after a kernel reply. -/
def KernelReply.memAfter : KernelReply → (Nat → Nat)
  | .success _ m => m
  | .failure _ m => m

/-- The kernel as an oracle.  `onSyscall` gives the raw C `long` result of a
numbered system call (a non-negative descriptor, or a negated error code) and
the memory after it; `onIoctl` gives the reply to an ioctl, reading the
command at the kernel's unsigned 32-bit width. -/
structure Kernel where
  onSyscall : Int → List Int → (Nat → Nat) → Int × (Nat → Nat)
  onIoctl : Int → Nat → Int → (Nat → Nat) → KernelReply

/-- The process state visible to the binding: the C `errno` variable, process
memory, the binding's own global data (of an arbitrary type `G`, since the
binding declares no global or static data of its own), and the trace of
kernel entries issued so far (instrumentation of the embedding). -/
structure ProcState (G : Type) where
  errno : Int
  mem : Nat → Nat
  globals : G
  trace : List KernelEntry

/-- The outcome of a shim call without the binding-global component: result
value, `errno`, memory and trace.  Used to state that outcomes do not depend
on the binding's globals. -/
def visible {G : Type} (p : Int × ProcState G) : Int × Int × (Nat → Nat) × List KernelEntry :=
  (p.1, p.2.errno, p.2.mem, p.2.trace)

/-- Modelled from the spec: the C library entry `libc::syscall` (the `libc`
crate is not under `src/`).  Per the spec's error convention for the open
call, it issues the raw numbered system call and returns the kernel's raw
result — a negated OS error code on failure — without setting the global
error variable `errno`. -/
def libc_syscall {G : Type} (k : Kernel) (nr : Int) (args : List Int)
    (s : ProcState G) : Int × ProcState G :=
  let r := k.onSyscall nr args s.mem
  (r.1, { s with mem := r.2, trace := s.trace ++ [KernelEntry.syscall nr args] })

/-- Modelled from the spec: the C library entry `libc::ioctl` (the `libc`
crate is not under `src/`).  Per the spec's convention for the control shims,
it issues the generic device-control request — the request code resolved at
the kernel's 32-bit width — and returns `-1` and sets `errno` on failure, or
the operation-defined non-negative value on success. -/
def libc_ioctl {G : Type} (k : Kernel) (fd : Int) (request : Int) (arg : Int)
    (s : ProcState G) : Int × ProcState G :=
  let cmd := u32OfRequest request
  match k.onIoctl fd cmd arg s.mem with
  | KernelReply.success v m =>
      ((v : Int), { s with mem := m, trace := s.trace ++ [KernelEntry.ioctlCall fd cmd arg] })
  | KernelReply.failure e m =>
      (-1,
       { s with errno := e, mem := m,
                trace := s.trace ++ [KernelEntry.ioctlCall fd cmd arg] })

/-- Modelled from the spec: the syscall number constant `__NR_perf_event_open`
from the generated `bindings` module, which is not under `src/`; the x86-64
value from the kernel headers the spec names. -/
def NR_perf_event_open : Nat := 298

/-- The `perf_event_open` shim (src/lib.rs lines 144-159): it calls
`libc::syscall` with the syscall number, the `attrs` pointer cast to a const
pointer (the cast leaves the address unchanged), and the remaining arguments
unchanged, and casts the C `long` result to a C `int`.  Pointers are modelled
as addresses (`Nat`). -/
def perf_event_open {G : Type} (k : Kernel) (attrs : Nat) (pid : Int) (cpu : Int)
    (group_fd : Int) (flags : Nat) (s : ProcState G) : Int × ProcState G :=
  let r := libc_syscall k (NR_perf_event_open : Int)
    [(attrs : Int), pid, cpu, group_fd, (flags : Int)] s
  (toCInt r.1, r.2)

/-- The `perf_event_ioctls` enum from the generated `bindings` module. -/
inductive perf_event_ioctls where
  | ENABLE
  | DISABLE
  | REFRESH
  | RESET
  | PERIOD
  | SET_OUTPUT
  | SET_FILTER
  | ID
  | SET_BPF
  | PAUSE_OUTPUT
  | QUERY_BPF
  | MODIFY_ATTRIBUTES

/-- Modelled from the spec: the numeric values of the `perf_event_ioctls`
enum from the generated `bindings` module, which is not under `src/`; the
values from the kernel headers the spec names (`_IO`/`_IOR`/`_IOW`/`_IOWR`
encodings in group the dollar character 0x24). -/
def perf_event_ioctls.val : perf_event_ioctls → Nat
  | .ENABLE => 0x2400
  | .DISABLE => 0x2401
  | .REFRESH => 0x2402
  | .RESET => 0x2403
  | .PERIOD => 0x40082404
  | .SET_OUTPUT => 0x2405
  | .SET_FILTER => 0x40082406
  | .ID => 0x80082407
  | .SET_BPF => 0x40042408
  | .PAUSE_OUTPUT => 0x40042409
  | .QUERY_BPF => 0xc008240a
  | .MODIFY_ATTRIBUTES => 0x4008240b

def perf_event_ioctls_ENABLE : perf_event_ioctls := .ENABLE

def perf_event_ioctls_DISABLE : perf_event_ioctls := .DISABLE

def perf_event_ioctls_REFRESH : perf_event_ioctls := .REFRESH

def perf_event_ioctls_RESET : perf_event_ioctls := .RESET

def perf_event_ioctls_PERIOD : perf_event_ioctls := .PERIOD

def perf_event_ioctls_SET_OUTPUT : perf_event_ioctls := .SET_OUTPUT

def perf_event_ioctls_SET_FILTER : perf_event_ioctls := .SET_FILTER

def perf_event_ioctls_ID : perf_event_ioctls := .ID

def perf_event_ioctls_SET_BPF : perf_event_ioctls := .SET_BPF

def perf_event_ioctls_PAUSE_OUTPUT : perf_event_ioctls := .PAUSE_OUTPUT

def perf_event_ioctls_QUERY_BPF : perf_event_ioctls := .QUERY_BPF

def perf_event_ioctls_MODIFY_ATTRIBUTES : perf_event_ioctls := .MODIFY_ATTRIBUTES

namespace ioctls

/-- The `untyped_ioctl` helper (src/lib.rs lines 204-214).  The compile-time
`cfg(target_env = "musl")` choice is modelled by the `musl` flag: on musl the
request enum is cast `as c_int` (a signed 32-bit reinterpretation, then
sign-extended by C argument promotion), on every other platform it is cast
`as c_ulong` (zero-extended).  The generic argument is handed over through an
encoding `enc` of its bits into the C variadic argument word. -/
def untyped_ioctl {G A : Type} (enc : A → Int) (musl : Bool) (k : Kernel)
    (fd : Int) (ioctl : perf_event_ioctls) (arg : A) (s : ProcState G) :
    Int × ProcState G :=
  if musl then
    libc_ioctl k fd (toCInt (ioctl.val : Int)) (enc arg) s
  else
    libc_ioctl k fd ((ioctl.val : Int)) (enc arg) s

/-- Shim `ENABLE` (macro `define_ioctl`, argument type `c_uint`). -/
def ENABLE {G : Type} (musl : Bool) (k : Kernel) (fd : Int) (arg : Nat)
    (s : ProcState G) : Int × ProcState G :=
  untyped_ioctl (fun a : Nat => (a : Int)) musl k fd perf_event_ioctls_ENABLE arg s

/-- Shim `DISABLE` (argument type `c_uint`). -/
def DISABLE {G : Type} (musl : Bool) (k : Kernel) (fd : Int) (arg : Nat)
    (s : ProcState G) : Int × ProcState G :=
  untyped_ioctl (fun a : Nat => (a : Int)) musl k fd perf_event_ioctls_DISABLE arg s

/-- Shim `REFRESH` (argument type `c_int`). -/
def REFRESH {G : Type} (musl : Bool) (k : Kernel) (fd : Int) (arg : Int)
    (s : ProcState G) : Int × ProcState G :=
  untyped_ioctl (fun a : Int => a) musl k fd perf_event_ioctls_REFRESH arg s

/-- Shim `RESET` (argument type `c_uint`). -/
def RESET {G : Type} (musl : Bool) (k : Kernel) (fd : Int) (arg : Nat)
    (s : ProcState G) : Int × ProcState G :=
  untyped_ioctl (fun a : Nat => (a : Int)) musl k fd perf_event_ioctls_RESET arg s

/-- Shim `PERIOD` (argument type `u64`). -/
def PERIOD {G : Type} (musl : Bool) (k : Kernel) (fd : Int) (arg : Nat)
    (s : ProcState G) : Int × ProcState G :=
  untyped_ioctl (fun a : Nat => (a : Int)) musl k fd perf_event_ioctls_PERIOD arg s

/-- Shim `SET_OUTPUT` (argument type `c_int`). -/
def SET_OUTPUT {G : Type} (musl : Bool) (k : Kernel) (fd : Int) (arg : Int)
    (s : ProcState G) : Int × ProcState G :=
  untyped_ioctl (fun a : Int => a) musl k fd perf_event_ioctls_SET_OUTPUT arg s

/-- Shim `SET_FILTER` (argument type `*mut c_char`, modelled as an address). -/
def SET_FILTER {G : Type} (musl : Bool) (k : Kernel) (fd : Int) (arg : Nat)
    (s : ProcState G) : Int × ProcState G :=
  untyped_ioctl (fun a : Nat => (a : Int)) musl k fd perf_event_ioctls_SET_FILTER arg s

/-- Shim `ID` (argument type `*mut u64`, modelled as an address). -/
def ID {G : Type} (musl : Bool) (k : Kernel) (fd : Int) (arg : Nat)
    (s : ProcState G) : Int × ProcState G :=
  untyped_ioctl (fun a : Nat => (a : Int)) musl k fd perf_event_ioctls_ID arg s

/-- Shim `SET_BPF` (argument type `u32`). -/
def SET_BPF {G : Type} (musl : Bool) (k : Kernel) (fd : Int) (arg : Nat)
    (s : ProcState G) : Int × ProcState G :=
  untyped_ioctl (fun a : Nat => (a : Int)) musl k fd perf_event_ioctls_SET_BPF arg s

/-- Shim `PAUSE_OUTPUT` (argument type `u32`). -/
def PAUSE_OUTPUT {G : Type} (musl : Bool) (k : Kernel) (fd : Int) (arg : Nat)
    (s : ProcState G) : Int × ProcState G :=
  untyped_ioctl (fun a : Nat => (a : Int)) musl k fd perf_event_ioctls_PAUSE_OUTPUT arg s

/-- Shim `QUERY_BPF` (argument type `*mut perf_event_query_bpf`, modelled as
an address). -/
def QUERY_BPF {G : Type} (musl : Bool) (k : Kernel) (fd : Int) (arg : Nat)
    (s : ProcState G) : Int × ProcState G :=
  untyped_ioctl (fun a : Nat => (a : Int)) musl k fd perf_event_ioctls_QUERY_BPF arg s

/-- Shim `MODIFY_ATTRIBUTES` (argument type `*mut perf_event_attr`, modelled
as an address). -/
def MODIFY_ATTRIBUTES {G : Type} (musl : Bool) (k : Kernel) (fd : Int) (arg : Nat)
    (s : ProcState G) : Int × ProcState G :=
  untyped_ioctl (fun a : Nat => (a : Int)) musl k fd perf_event_ioctls_MODIFY_ATTRIBUTES arg s

end ioctls

/-- A concrete kernel oracle whose open call fails with `EINVAL` (raw result
`-22`) and whose ioctls fail with `EBADF` (error code `9`), leaving memory
all-zero; used to evaluate the theorems at concrete inputs. -/
def testKernel : Kernel where
  onSyscall := fun _ _ _ => (-22, fun _ => 0)
  onIoctl := fun _ _ _ _ => KernelReply.failure 9 (fun _ => 0)

/-- A concrete kernel oracle whose open call succeeds with descriptor `5` and
whose ioctls succeed with value `0`, leaving memory all-zero. -/
def okKernel : Kernel where
  onSyscall := fun _ _ _ => (5, fun _ => 0)
  onIoctl := fun _ _ _ _ => KernelReply.success 0 (fun _ => 0)

/-- A concrete initial process state over trivial binding globals. -/
def testState : ProcState Unit :=
  { errno := 0, mem := fun _ => 0, globals := (), trace := [] }

/-- A kernel oracle whose open call reports the out-of-32-bit-range raw value
`2^32`; no real kernel does this, it exemplifies that such a value would not
survive the `as c_int` cast. -/
def bigKernel : Kernel where
  onSyscall := fun _ _ _ => (2 ^ 32, fun _ => 0)
  onIoctl := fun _ _ _ _ => KernelReply.failure 9 (fun _ => 0)

theorem toCInt_eq_self (r : Int) (h1 : -(2 ^ 31) ≤ r) (h2 : r < 2 ^ 31) :
    toCInt r = r := by
  have h3 : (r + 2 ^ 31) % 2 ^ 32 = r + 2 ^ 31 :=
    Int.emod_eq_of_lt (by omega) (by omega)
  unfold toCInt
  omega

theorem toCInt_lb (r : Int) : -(2 ^ 31) ≤ toCInt r := by
  have h : 0 ≤ (r + 2 ^ 31) % 2 ^ 32 := Int.emod_nonneg _ (by norm_num)
  unfold toCInt
  omega

theorem toCInt_ub (r : Int) : toCInt r < 2 ^ 31 := by
  have h : (r + 2 ^ 31) % 2 ^ 32 < 2 ^ 32 := Int.emod_lt_of_pos _ (by norm_num)
  unfold toCInt
  omega

theorem toCInt_mod (r : Int) : toCInt r % 2 ^ 32 = r % 2 ^ 32 := by
  unfold toCInt
  omega

/-- On every enum value, the musl path (cast `as c_int`, sign-extended) and
the other path (cast `as c_ulong`) both resolve, at the kernel's unsigned
32-bit command width, to the enum's numeric value. -/
theorem u32_resolves (i : perf_event_ioctls) :
    u32OfRequest (toCInt (i.val : Int)) = i.val ∧
    u32OfRequest ((i.val : Int)) = i.val := by
  cases i <;> exact ⟨by decide, by decide⟩

theorem libc_ioctl_eq {G : Type} (k : Kernel) (fd request arg : Int)
    (s : ProcState G) :
    libc_ioctl k fd request arg s =
      ((k.onIoctl fd (u32OfRequest request) arg s.mem).retval,
       { s with
           errno := (k.onIoctl fd (u32OfRequest request) arg s.mem).errnoAfter s.errno,
           mem := (k.onIoctl fd (u32OfRequest request) arg s.mem).memAfter,
           trace := s.trace ++ [KernelEntry.ioctlCall fd (u32OfRequest request) arg] }) := by
  cases h : k.onIoctl fd (u32OfRequest request) arg s.mem <;>
    simp [libc_ioctl, h, KernelReply.retval, KernelReply.errnoAfter, KernelReply.memAfter]

theorem untyped_ioctl_eq {G A : Type} (enc : A → Int) (musl : Bool) (k : Kernel)
    (fd : Int) (i : perf_event_ioctls) (arg : A) (s : ProcState G) :
    ioctls.untyped_ioctl enc musl k fd i arg s =
      ((k.onIoctl fd i.val (enc arg) s.mem).retval,
       { s with
           errno := (k.onIoctl fd i.val (enc arg) s.mem).errnoAfter s.errno,
           mem := (k.onIoctl fd i.val (enc arg) s.mem).memAfter,
           trace := s.trace ++ [KernelEntry.ioctlCall fd i.val (enc arg)] }) := by
  have h := u32_resolves i
  cases musl <;>
    simp [ioctls.untyped_ioctl, libc_ioctl_eq, h.1, h.2]

/-- The argument words `perf_event_open` passes to `libc::syscall`, in order:
the `attrs` pointer (the `as *const` cast leaves the address unchanged),
`pid`, `cpu`, `group_fd`, `flags`. -/
def openArgs (attrs : Nat) (pid cpu group_fd : Int) (flags : Nat) : List Int :=
  [(attrs : Int), pid, cpu, group_fd, (flags : Int)]

/-- Claim C1: for every call to `perf_event_open`, whenever the kernel
reports an error — a negative raw result, which by the raw system-call
convention is the negated OS error value — the function returns that negated
raw OS error value, and the process's global error variable `errno` is left
unchanged by the call. -/
theorem perf_event_open_error_convention {G : Type} (k : Kernel) (attrs : Nat)
    (pid cpu group_fd : Int) (flags : Nat) (s : ProcState G)
    (hneg : (k.onSyscall (NR_perf_event_open : Int)
      (openArgs attrs pid cpu group_fd flags) s.mem).1 < 0)
    (hlo : -(2 ^ 31) ≤ (k.onSyscall (NR_perf_event_open : Int)
      (openArgs attrs pid cpu group_fd flags) s.mem).1) :
    (perf_event_open k attrs pid cpu group_fd flags s).1 =
      (k.onSyscall (NR_perf_event_open : Int)
        (openArgs attrs pid cpu group_fd flags) s.mem).1 ∧
    (perf_event_open k attrs pid cpu group_fd flags s).2.errno = s.errno := by
  refine ⟨?_, rfl⟩
  exact toCInt_eq_self ((k.onSyscall (NR_perf_event_open : Int)
    (openArgs attrs pid cpu group_fd flags) s.mem).1) hlo (by omega)

/-- Evaluation of the claim C1 theorem on a concrete failing call: the kernel
oracle `testKernel` reports raw result `-22` (negated `EINVAL`). -/
theorem perf_event_open_error_convention_witness :
    (perf_event_open testKernel 4096 0 (-1) (-1) 0 testState).1 =
      (testKernel.onSyscall (NR_perf_event_open : Int)
        (openArgs 4096 0 (-1) (-1) 0) testState.mem).1 ∧
    (perf_event_open testKernel 4096 0 (-1) (-1) 0 testState).2.errno =
      testState.errno :=
  perf_event_open_error_convention testKernel 4096 0 (-1) (-1) 0 testState
    (by decide) (by decide)

/-- Claim C2: every call to `perf_event_open` issues the numbered system call
exactly once — the trace grows by exactly one `syscall` entry carrying the
`perf_event_open` syscall number and the five arguments unchanged, so no
validation and no retry happens — and returns the kernel's raw result
unchanged (a non-negative descriptor or a negative error value, both of which
lie in the C `int` range). -/
theorem perf_event_open_single_syscall {G : Type} (k : Kernel) (attrs : Nat)
    (pid cpu group_fd : Int) (flags : Nat) (s : ProcState G)
    (hlo : -(2 ^ 31) ≤ (k.onSyscall (NR_perf_event_open : Int)
      (openArgs attrs pid cpu group_fd flags) s.mem).1)
    (hhi : (k.onSyscall (NR_perf_event_open : Int)
      (openArgs attrs pid cpu group_fd flags) s.mem).1 < 2 ^ 31) :
    (perf_event_open k attrs pid cpu group_fd flags s).1 =
      (k.onSyscall (NR_perf_event_open : Int)
        (openArgs attrs pid cpu group_fd flags) s.mem).1 ∧
    (perf_event_open k attrs pid cpu group_fd flags s).2.trace =
      s.trace ++ [KernelEntry.syscall (NR_perf_event_open : Int)
        (openArgs attrs pid cpu group_fd flags)] := by
  refine ⟨?_, rfl⟩
  exact toCInt_eq_self _ hlo hhi

/-- Evaluation of the claim C2 theorem on a concrete successful call: the
kernel oracle `okKernel` reports descriptor `5`. -/
theorem perf_event_open_single_syscall_witness :
    (perf_event_open okKernel 4096 0 (-1) (-1) 0 testState).1 =
      (okKernel.onSyscall (NR_perf_event_open : Int)
        (openArgs 4096 0 (-1) (-1) 0) testState.mem).1 ∧
    (perf_event_open okKernel 4096 0 (-1) (-1) 0 testState).2.trace =
      testState.trace ++ [KernelEntry.syscall (NR_perf_event_open : Int)
        (openArgs 4096 0 (-1) (-1) 0)] :=
  perf_event_open_single_syscall okKernel 4096 0 (-1) (-1) 0 testState
    (by decide) (by decide)

/-- Claim C5: for every request code of the `perf_event_ioctls` enum, the two
platform-conditional paths of `untyped_ioctl` are equivalent — the whole call
on the musl path (request cast `as c_int`) equals the call on the path every
other platform takes (request cast `as c_ulong`), because both casts resolve
to the same numeric request code at the kernel's 32-bit command width. -/
theorem untyped_ioctl_musl_equiv {G A : Type} (enc : A → Int) (k : Kernel)
    (fd : Int) (i : perf_event_ioctls) (arg : A) (s : ProcState G) :
    ioctls.untyped_ioctl enc true k fd i arg s =
      ioctls.untyped_ioctl enc false k fd i arg s ∧
    u32OfRequest (toCInt (i.val : Int)) = u32OfRequest ((i.val : Int)) := by
  refine ⟨?_, (u32_resolves i).1.trans (u32_resolves i).2.symm⟩
  rw [untyped_ioctl_eq, untyped_ioctl_eq]

/-- Claim C6: `perf_event_open` is a total function of its arguments and the
kernel's response — the embedding has no panic, abort or unwinding path, the
Rust body being a single FFI call and two casts with wrapping semantics — and
on a call with invalid parameters, which the kernel answers with an error
(a negative raw result, always in the C `int` range), the returned value is
negative: every failure is reported through the return value. -/
theorem perf_event_open_total_negative {G : Type} (k : Kernel) (attrs : Nat)
    (pid cpu group_fd : Int) (flags : Nat) (s : ProcState G)
    (hneg : (k.onSyscall (NR_perf_event_open : Int)
      (openArgs attrs pid cpu group_fd flags) s.mem).1 < 0)
    (hlo : -(2 ^ 31) ≤ (k.onSyscall (NR_perf_event_open : Int)
      (openArgs attrs pid cpu group_fd flags) s.mem).1) :
    (perf_event_open k attrs pid cpu group_fd flags s).1 < 0 := by
  have h : (perf_event_open k attrs pid cpu group_fd flags s).1 =
      toCInt (k.onSyscall (NR_perf_event_open : Int)
        (openArgs attrs pid cpu group_fd flags) s.mem).1 := rfl
  rw [h, toCInt_eq_self _ hlo (by omega)]
  exact hneg

/-- Evaluation of the claim C6 theorem on a concrete call with invalid
parameters: `testKernel` answers every open call with raw result `-22`
(negated `EINVAL`, as for a nonexistent event type). -/
theorem perf_event_open_total_negative_witness :
    (perf_event_open testKernel 4096 0 (-1) (-1) 0 testState).1 < 0 :=
  perf_event_open_total_negative testKernel 4096 0 (-1) (-1) 0 testState
    (by decide) (by decide)

/-- Claim C10: the value `perf_event_open` returns equals the C `long` result
of `libc::syscall` truncated to a C `int`; the truncation `toCInt` is exactly
reduction modulo 2^32 reinterpreted as a signed 32-bit integer (it preserves
the residue modulo 2^32 and lands in the signed 32-bit range); and a
hypothetical raw result outside the signed 32-bit range would not be returned
unchanged. -/
theorem perf_event_open_truncates {G : Type} (k : Kernel) (attrs : Nat)
    (pid cpu group_fd : Int) (flags : Nat) (s : ProcState G) :
    (perf_event_open k attrs pid cpu group_fd flags s).1 =
      toCInt (k.onSyscall (NR_perf_event_open : Int)
        (openArgs attrs pid cpu group_fd flags) s.mem).1 ∧
    (∀ r : Int, toCInt r % 2 ^ 32 = r % 2 ^ 32 ∧
      -(2 ^ 31) ≤ toCInt r ∧ toCInt r < 2 ^ 31) ∧
    (∀ (k2 : Kernel) (r : Int), 2 ^ 31 ≤ r ∨ r < -(2 ^ 31) →
      (k2.onSyscall (NR_perf_event_open : Int)
        (openArgs attrs pid cpu group_fd flags) s.mem).1 = r →
      (perf_event_open k2 attrs pid cpu group_fd flags s).1 ≠ r) := by
  refine ⟨rfl, fun r => ⟨toCInt_mod r, toCInt_lb r, toCInt_ub r⟩, ?_⟩
  intro k2 r hr he
  have h : (perf_event_open k2 attrs pid cpu group_fd flags s).1 =
      toCInt (k2.onSyscall (NR_perf_event_open : Int)
        (openArgs attrs pid cpu group_fd flags) s.mem).1 := rfl
  rw [h, he]
  have h1 := toCInt_lb r
  have h2 := toCInt_ub r
  omega

/-- Evaluation of the claim C10 theorem: `bigKernel` answers the open call
with the out-of-range raw value `2^32`, and the shim does not return it
unchanged. -/
theorem perf_event_open_truncates_witness :
    (perf_event_open bigKernel 4096 0 (-1) (-1) 0 testState).1 ≠ 2 ^ 32 :=
  (perf_event_open_truncates bigKernel 4096 0 (-1) (-1) 0 testState).2.2
    bigKernel (2 ^ 32) (by decide) (by decide)

theorem untyped_ioctl_convention {G A : Type} (enc : A → Int) (musl : Bool)
    (k : Kernel) (fd : Int) (i : perf_event_ioctls) (arg : A) (s : ProcState G) :
    (∃ v m, k.onIoctl fd i.val (enc arg) s.mem = KernelReply.success v m ∧
       (ioctls.untyped_ioctl enc musl k fd i arg s).1 = (v : Int) ∧
       0 ≤ (ioctls.untyped_ioctl enc musl k fd i arg s).1 ∧
       (ioctls.untyped_ioctl enc musl k fd i arg s).2.errno = s.errno) ∨
    (∃ e m, k.onIoctl fd i.val (enc arg) s.mem = KernelReply.failure e m ∧
       (ioctls.untyped_ioctl enc musl k fd i arg s).1 = -1 ∧
       (ioctls.untyped_ioctl enc musl k fd i arg s).2.errno = e) := by
  rcases h : k.onIoctl fd i.val (enc arg) s.mem with ⟨v, m⟩ | ⟨e, m⟩
  · refine Or.inl ⟨v, m, rfl, ?_, ?_, ?_⟩ <;>
      simp [untyped_ioctl_eq, h, KernelReply.retval, KernelReply.errnoAfter]
  · refine Or.inr ⟨e, m, rfl, ?_, ?_⟩ <;>
      simp [untyped_ioctl_eq, h, KernelReply.retval, KernelReply.errnoAfter]

theorem untyped_ioctl_globals {G A : Type} (enc : A → Int) (musl : Bool)
    (k : Kernel) (fd : Int) (i : perf_event_ioctls) (arg : A) (s : ProcState G)
    (g g2 : G) :
    (ioctls.untyped_ioctl enc musl k fd i arg { s with globals := g }).2.globals = g ∧
    visible (ioctls.untyped_ioctl enc musl k fd i arg { s with globals := g }) =
      visible (ioctls.untyped_ioctl enc musl k fd i arg { s with globals := g2 }) := by
  constructor
  · rw [untyped_ioctl_eq]
  · rw [untyped_ioctl_eq, untyped_ioctl_eq]
    rfl

theorem untyped_ioctl_ptr_frame {G A : Type} (enc : A → Int) (musl : Bool)
    (k : Kernel) (fd : Int) (i : perf_event_ioctls) (arg : A) (s : ProcState G) :
    (ioctls.untyped_ioctl enc musl k fd i arg s).2.mem =
      (k.onIoctl fd i.val (enc arg) s.mem).memAfter ∧
    (ioctls.untyped_ioctl enc musl k fd i arg s).2.trace =
      s.trace ++ [KernelEntry.ioctlCall fd i.val (enc arg)] ∧
    (∀ m2 : Nat → Nat,
      k.onIoctl fd i.val (enc arg) m2 = k.onIoctl fd i.val (enc arg) s.mem →
      visible (ioctls.untyped_ioctl enc musl k fd i arg { s with mem := m2 }) =
        visible (ioctls.untyped_ioctl enc musl k fd i arg s)) := by
  refine ⟨?_, ?_, ?_⟩
  · rw [untyped_ioctl_eq]
  · rw [untyped_ioctl_eq]
  · intro m2 h
    simp only [untyped_ioctl_eq, visible]
    rw [h]

/-- Claim C3: every control shim of the `ioctls` module issues the generic
ioctl request exactly once — the trace grows by exactly one `ioctlCall`
entry — carrying the request code constant matching the shim's name, the file
descriptor unchanged, and the shim's integer/pointer argument unchanged, on
either platform path. -/
theorem ioctls_forward_unchanged {G : Type} (musl : Bool) (k : Kernel)
    (fd : Int) (s : ProcState G) :
    (∀ arg : Nat, (ioctls.ENABLE musl k fd arg s).2.trace =
        s.trace ++ [KernelEntry.ioctlCall fd perf_event_ioctls_ENABLE.val (arg : Int)]) ∧
    (∀ arg : Nat, (ioctls.DISABLE musl k fd arg s).2.trace =
        s.trace ++ [KernelEntry.ioctlCall fd perf_event_ioctls_DISABLE.val (arg : Int)]) ∧
    (∀ arg : Int, (ioctls.REFRESH musl k fd arg s).2.trace =
        s.trace ++ [KernelEntry.ioctlCall fd perf_event_ioctls_REFRESH.val arg]) ∧
    (∀ arg : Nat, (ioctls.RESET musl k fd arg s).2.trace =
        s.trace ++ [KernelEntry.ioctlCall fd perf_event_ioctls_RESET.val (arg : Int)]) ∧
    (∀ arg : Nat, (ioctls.PERIOD musl k fd arg s).2.trace =
        s.trace ++ [KernelEntry.ioctlCall fd perf_event_ioctls_PERIOD.val (arg : Int)]) ∧
    (∀ arg : Int, (ioctls.SET_OUTPUT musl k fd arg s).2.trace =
        s.trace ++ [KernelEntry.ioctlCall fd perf_event_ioctls_SET_OUTPUT.val arg]) ∧
    (∀ arg : Nat, (ioctls.SET_FILTER musl k fd arg s).2.trace =
        s.trace ++ [KernelEntry.ioctlCall fd perf_event_ioctls_SET_FILTER.val (arg : Int)]) ∧
    (∀ arg : Nat, (ioctls.ID musl k fd arg s).2.trace =
        s.trace ++ [KernelEntry.ioctlCall fd perf_event_ioctls_ID.val (arg : Int)]) ∧
    (∀ arg : Nat, (ioctls.SET_BPF musl k fd arg s).2.trace =
        s.trace ++ [KernelEntry.ioctlCall fd perf_event_ioctls_SET_BPF.val (arg : Int)]) ∧
    (∀ arg : Nat, (ioctls.PAUSE_OUTPUT musl k fd arg s).2.trace =
        s.trace ++ [KernelEntry.ioctlCall fd perf_event_ioctls_PAUSE_OUTPUT.val (arg : Int)]) ∧
    (∀ arg : Nat, (ioctls.QUERY_BPF musl k fd arg s).2.trace =
        s.trace ++ [KernelEntry.ioctlCall fd perf_event_ioctls_QUERY_BPF.val (arg : Int)]) ∧
    (∀ arg : Nat, (ioctls.MODIFY_ATTRIBUTES musl k fd arg s).2.trace =
        s.trace ++ [KernelEntry.ioctlCall fd perf_event_ioctls_MODIFY_ATTRIBUTES.val (arg : Int)]) := by
  refine ⟨fun arg => ?_, fun arg => ?_, fun arg => ?_, fun arg => ?_, fun arg => ?_,
    fun arg => ?_, fun arg => ?_, fun arg => ?_, fun arg => ?_, fun arg => ?_,
    fun arg => ?_, fun arg => ?_⟩ <;>
  · show (ioctls.untyped_ioctl _ musl k fd _ arg s).2.trace = _
    rw [untyped_ioctl_eq]

/-- Claim C4: every control shim returns `-1` and stores the failure cause in
the C `errno` variable when the kernel replies with a failure, and returns the
kernel's operation-defined non-negative value, leaving `errno` alone, when it
replies with a success; the reply value is forwarded with no translation. -/
theorem ioctls_error_convention {G : Type} (musl : Bool) (k : Kernel)
    (fd : Int) (s : ProcState G) :
    (∀ arg : Nat,
      (∃ v m, k.onIoctl fd perf_event_ioctls_ENABLE.val (arg : Int) s.mem = KernelReply.success v m ∧
         (ioctls.ENABLE musl k fd arg s).1 = (v : Int) ∧
         0 ≤ (ioctls.ENABLE musl k fd arg s).1 ∧
         (ioctls.ENABLE musl k fd arg s).2.errno = s.errno) ∨
      (∃ e m, k.onIoctl fd perf_event_ioctls_ENABLE.val (arg : Int) s.mem = KernelReply.failure e m ∧
         (ioctls.ENABLE musl k fd arg s).1 = -1 ∧
         (ioctls.ENABLE musl k fd arg s).2.errno = e)) ∧
    (∀ arg : Nat,
      (∃ v m, k.onIoctl fd perf_event_ioctls_DISABLE.val (arg : Int) s.mem = KernelReply.success v m ∧
         (ioctls.DISABLE musl k fd arg s).1 = (v : Int) ∧
         0 ≤ (ioctls.DISABLE musl k fd arg s).1 ∧
         (ioctls.DISABLE musl k fd arg s).2.errno = s.errno) ∨
      (∃ e m, k.onIoctl fd perf_event_ioctls_DISABLE.val (arg : Int) s.mem = KernelReply.failure e m ∧
         (ioctls.DISABLE musl k fd arg s).1 = -1 ∧
         (ioctls.DISABLE musl k fd arg s).2.errno = e)) ∧
    (∀ arg : Int,
      (∃ v m, k.onIoctl fd perf_event_ioctls_REFRESH.val arg s.mem = KernelReply.success v m ∧
         (ioctls.REFRESH musl k fd arg s).1 = (v : Int) ∧
         0 ≤ (ioctls.REFRESH musl k fd arg s).1 ∧
         (ioctls.REFRESH musl k fd arg s).2.errno = s.errno) ∨
      (∃ e m, k.onIoctl fd perf_event_ioctls_REFRESH.val arg s.mem = KernelReply.failure e m ∧
         (ioctls.REFRESH musl k fd arg s).1 = -1 ∧
         (ioctls.REFRESH musl k fd arg s).2.errno = e)) ∧
    (∀ arg : Nat,
      (∃ v m, k.onIoctl fd perf_event_ioctls_RESET.val (arg : Int) s.mem = KernelReply.success v m ∧
         (ioctls.RESET musl k fd arg s).1 = (v : Int) ∧
         0 ≤ (ioctls.RESET musl k fd arg s).1 ∧
         (ioctls.RESET musl k fd arg s).2.errno = s.errno) ∨
      (∃ e m, k.onIoctl fd perf_event_ioctls_RESET.val (arg : Int) s.mem = KernelReply.failure e m ∧
         (ioctls.RESET musl k fd arg s).1 = -1 ∧
         (ioctls.RESET musl k fd arg s).2.errno = e)) ∧
    (∀ arg : Nat,
      (∃ v m, k.onIoctl fd perf_event_ioctls_PERIOD.val (arg : Int) s.mem = KernelReply.success v m ∧
         (ioctls.PERIOD musl k fd arg s).1 = (v : Int) ∧
         0 ≤ (ioctls.PERIOD musl k fd arg s).1 ∧
         (ioctls.PERIOD musl k fd arg s).2.errno = s.errno) ∨
      (∃ e m, k.onIoctl fd perf_event_ioctls_PERIOD.val (arg : Int) s.mem = KernelReply.failure e m ∧
         (ioctls.PERIOD musl k fd arg s).1 = -1 ∧
         (ioctls.PERIOD musl k fd arg s).2.errno = e)) ∧
    (∀ arg : Int,
      (∃ v m, k.onIoctl fd perf_event_ioctls_SET_OUTPUT.val arg s.mem = KernelReply.success v m ∧
         (ioctls.SET_OUTPUT musl k fd arg s).1 = (v : Int) ∧
         0 ≤ (ioctls.SET_OUTPUT musl k fd arg s).1 ∧
         (ioctls.SET_OUTPUT musl k fd arg s).2.errno = s.errno) ∨
      (∃ e m, k.onIoctl fd perf_event_ioctls_SET_OUTPUT.val arg s.mem = KernelReply.failure e m ∧
         (ioctls.SET_OUTPUT musl k fd arg s).1 = -1 ∧
         (ioctls.SET_OUTPUT musl k fd arg s).2.errno = e)) ∧
    (∀ arg : Nat,
      (∃ v m, k.onIoctl fd perf_event_ioctls_SET_FILTER.val (arg : Int) s.mem = KernelReply.success v m ∧
         (ioctls.SET_FILTER musl k fd arg s).1 = (v : Int) ∧
         0 ≤ (ioctls.SET_FILTER musl k fd arg s).1 ∧
         (ioctls.SET_FILTER musl k fd arg s).2.errno = s.errno) ∨
      (∃ e m, k.onIoctl fd perf_event_ioctls_SET_FILTER.val (arg : Int) s.mem = KernelReply.failure e m ∧
         (ioctls.SET_FILTER musl k fd arg s).1 = -1 ∧
         (ioctls.SET_FILTER musl k fd arg s).2.errno = e)) ∧
    (∀ arg : Nat,
      (∃ v m, k.onIoctl fd perf_event_ioctls_ID.val (arg : Int) s.mem = KernelReply.success v m ∧
         (ioctls.ID musl k fd arg s).1 = (v : Int) ∧
         0 ≤ (ioctls.ID musl k fd arg s).1 ∧
         (ioctls.ID musl k fd arg s).2.errno = s.errno) ∨
      (∃ e m, k.onIoctl fd perf_event_ioctls_ID.val (arg : Int) s.mem = KernelReply.failure e m ∧
         (ioctls.ID musl k fd arg s).1 = -1 ∧
         (ioctls.ID musl k fd arg s).2.errno = e)) ∧
    (∀ arg : Nat,
      (∃ v m, k.onIoctl fd perf_event_ioctls_SET_BPF.val (arg : Int) s.mem = KernelReply.success v m ∧
         (ioctls.SET_BPF musl k fd arg s).1 = (v : Int) ∧
         0 ≤ (ioctls.SET_BPF musl k fd arg s).1 ∧
         (ioctls.SET_BPF musl k fd arg s).2.errno = s.errno) ∨
      (∃ e m, k.onIoctl fd perf_event_ioctls_SET_BPF.val (arg : Int) s.mem = KernelReply.failure e m ∧
         (ioctls.SET_BPF musl k fd arg s).1 = -1 ∧
         (ioctls.SET_BPF musl k fd arg s).2.errno = e)) ∧
    (∀ arg : Nat,
      (∃ v m, k.onIoctl fd perf_event_ioctls_PAUSE_OUTPUT.val (arg : Int) s.mem = KernelReply.success v m ∧
         (ioctls.PAUSE_OUTPUT musl k fd arg s).1 = (v : Int) ∧
         0 ≤ (ioctls.PAUSE_OUTPUT musl k fd arg s).1 ∧
         (ioctls.PAUSE_OUTPUT musl k fd arg s).2.errno = s.errno) ∨
      (∃ e m, k.onIoctl fd perf_event_ioctls_PAUSE_OUTPUT.val (arg : Int) s.mem = KernelReply.failure e m ∧
         (ioctls.PAUSE_OUTPUT musl k fd arg s).1 = -1 ∧
         (ioctls.PAUSE_OUTPUT musl k fd arg s).2.errno = e)) ∧
    (∀ arg : Nat,
      (∃ v m, k.onIoctl fd perf_event_ioctls_QUERY_BPF.val (arg : Int) s.mem = KernelReply.success v m ∧
         (ioctls.QUERY_BPF musl k fd arg s).1 = (v : Int) ∧
         0 ≤ (ioctls.QUERY_BPF musl k fd arg s).1 ∧
         (ioctls.QUERY_BPF musl k fd arg s).2.errno = s.errno) ∨
      (∃ e m, k.onIoctl fd perf_event_ioctls_QUERY_BPF.val (arg : Int) s.mem = KernelReply.failure e m ∧
         (ioctls.QUERY_BPF musl k fd arg s).1 = -1 ∧
         (ioctls.QUERY_BPF musl k fd arg s).2.errno = e)) ∧
    (∀ arg : Nat,
      (∃ v m, k.onIoctl fd perf_event_ioctls_MODIFY_ATTRIBUTES.val (arg : Int) s.mem = KernelReply.success v m ∧
         (ioctls.MODIFY_ATTRIBUTES musl k fd arg s).1 = (v : Int) ∧
         0 ≤ (ioctls.MODIFY_ATTRIBUTES musl k fd arg s).1 ∧
         (ioctls.MODIFY_ATTRIBUTES musl k fd arg s).2.errno = s.errno) ∨
      (∃ e m, k.onIoctl fd perf_event_ioctls_MODIFY_ATTRIBUTES.val (arg : Int) s.mem = KernelReply.failure e m ∧
         (ioctls.MODIFY_ATTRIBUTES musl k fd arg s).1 = -1 ∧
         (ioctls.MODIFY_ATTRIBUTES musl k fd arg s).2.errno = e)) :=
  ⟨fun arg => untyped_ioctl_convention (fun a : Nat => (a : Int)) musl k fd perf_event_ioctls_ENABLE arg s,
   fun arg => untyped_ioctl_convention (fun a : Nat => (a : Int)) musl k fd perf_event_ioctls_DISABLE arg s,
   fun arg => untyped_ioctl_convention (fun a : Int => a) musl k fd perf_event_ioctls_REFRESH arg s,
   fun arg => untyped_ioctl_convention (fun a : Nat => (a : Int)) musl k fd perf_event_ioctls_RESET arg s,
   fun arg => untyped_ioctl_convention (fun a : Nat => (a : Int)) musl k fd perf_event_ioctls_PERIOD arg s,
   fun arg => untyped_ioctl_convention (fun a : Int => a) musl k fd perf_event_ioctls_SET_OUTPUT arg s,
   fun arg => untyped_ioctl_convention (fun a : Nat => (a : Int)) musl k fd perf_event_ioctls_SET_FILTER arg s,
   fun arg => untyped_ioctl_convention (fun a : Nat => (a : Int)) musl k fd perf_event_ioctls_ID arg s,
   fun arg => untyped_ioctl_convention (fun a : Nat => (a : Int)) musl k fd perf_event_ioctls_SET_BPF arg s,
   fun arg => untyped_ioctl_convention (fun a : Nat => (a : Int)) musl k fd perf_event_ioctls_PAUSE_OUTPUT arg s,
   fun arg => untyped_ioctl_convention (fun a : Nat => (a : Int)) musl k fd perf_event_ioctls_QUERY_BPF arg s,
   fun arg => untyped_ioctl_convention (fun a : Nat => (a : Int)) musl k fd perf_event_ioctls_MODIFY_ATTRIBUTES arg s⟩

/-- Claim C7: every shim — the open shim and the twelve control shims — reads
and writes no global or static data of the binding itself: the binding's
global component (an arbitrary type `G`) is returned unchanged, and the
visible outcome (result, `errno`, memory, kernel trace) is the same for any
two values of that component, so the outcome depends only on the arguments
and the kernel's response; concurrent calls therefore cannot interfere
through the binding's own state. -/
theorem shims_stateless {G : Type} (musl : Bool) (k : Kernel) (s : ProcState G) :
    (∀ (attrs : Nat) (pid cpu group_fd : Int) (flags : Nat) (g g2 : G),
        (perf_event_open k attrs pid cpu group_fd flags { s with globals := g }).2.globals = g ∧
        visible (perf_event_open k attrs pid cpu group_fd flags { s with globals := g }) =
          visible (perf_event_open k attrs pid cpu group_fd flags { s with globals := g2 })) ∧
    (∀ (fd : Int) (arg : Nat) (g g2 : G),
        (ioctls.ENABLE musl k fd arg { s with globals := g }).2.globals = g ∧
        visible (ioctls.ENABLE musl k fd arg { s with globals := g }) =
          visible (ioctls.ENABLE musl k fd arg { s with globals := g2 })) ∧
    (∀ (fd : Int) (arg : Nat) (g g2 : G),
        (ioctls.DISABLE musl k fd arg { s with globals := g }).2.globals = g ∧
        visible (ioctls.DISABLE musl k fd arg { s with globals := g }) =
          visible (ioctls.DISABLE musl k fd arg { s with globals := g2 })) ∧
    (∀ (fd : Int) (arg : Int) (g g2 : G),
        (ioctls.REFRESH musl k fd arg { s with globals := g }).2.globals = g ∧
        visible (ioctls.REFRESH musl k fd arg { s with globals := g }) =
          visible (ioctls.REFRESH musl k fd arg { s with globals := g2 })) ∧
    (∀ (fd : Int) (arg : Nat) (g g2 : G),
        (ioctls.RESET musl k fd arg { s with globals := g }).2.globals = g ∧
        visible (ioctls.RESET musl k fd arg { s with globals := g }) =
          visible (ioctls.RESET musl k fd arg { s with globals := g2 })) ∧
    (∀ (fd : Int) (arg : Nat) (g g2 : G),
        (ioctls.PERIOD musl k fd arg { s with globals := g }).2.globals = g ∧
        visible (ioctls.PERIOD musl k fd arg { s with globals := g }) =
          visible (ioctls.PERIOD musl k fd arg { s with globals := g2 })) ∧
    (∀ (fd : Int) (arg : Int) (g g2 : G),
        (ioctls.SET_OUTPUT musl k fd arg { s with globals := g }).2.globals = g ∧
        visible (ioctls.SET_OUTPUT musl k fd arg { s with globals := g }) =
          visible (ioctls.SET_OUTPUT musl k fd arg { s with globals := g2 })) ∧
    (∀ (fd : Int) (arg : Nat) (g g2 : G),
        (ioctls.SET_FILTER musl k fd arg { s with globals := g }).2.globals = g ∧
        visible (ioctls.SET_FILTER musl k fd arg { s with globals := g }) =
          visible (ioctls.SET_FILTER musl k fd arg { s with globals := g2 })) ∧
    (∀ (fd : Int) (arg : Nat) (g g2 : G),
        (ioctls.ID musl k fd arg { s with globals := g }).2.globals = g ∧
        visible (ioctls.ID musl k fd arg { s with globals := g }) =
          visible (ioctls.ID musl k fd arg { s with globals := g2 })) ∧
    (∀ (fd : Int) (arg : Nat) (g g2 : G),
        (ioctls.SET_BPF musl k fd arg { s with globals := g }).2.globals = g ∧
        visible (ioctls.SET_BPF musl k fd arg { s with globals := g }) =
          visible (ioctls.SET_BPF musl k fd arg { s with globals := g2 })) ∧
    (∀ (fd : Int) (arg : Nat) (g g2 : G),
        (ioctls.PAUSE_OUTPUT musl k fd arg { s with globals := g }).2.globals = g ∧
        visible (ioctls.PAUSE_OUTPUT musl k fd arg { s with globals := g }) =
          visible (ioctls.PAUSE_OUTPUT musl k fd arg { s with globals := g2 })) ∧
    (∀ (fd : Int) (arg : Nat) (g g2 : G),
        (ioctls.QUERY_BPF musl k fd arg { s with globals := g }).2.globals = g ∧
        visible (ioctls.QUERY_BPF musl k fd arg { s with globals := g }) =
          visible (ioctls.QUERY_BPF musl k fd arg { s with globals := g2 })) ∧
    (∀ (fd : Int) (arg : Nat) (g g2 : G),
        (ioctls.MODIFY_ATTRIBUTES musl k fd arg { s with globals := g }).2.globals = g ∧
        visible (ioctls.MODIFY_ATTRIBUTES musl k fd arg { s with globals := g }) =
          visible (ioctls.MODIFY_ATTRIBUTES musl k fd arg { s with globals := g2 })) :=
  ⟨fun _ _ _ _ _ _ _ => ⟨rfl, rfl⟩,
   fun fd arg g g2 => untyped_ioctl_globals (fun a : Nat => (a : Int)) musl k fd perf_event_ioctls_ENABLE arg s g g2,
   fun fd arg g g2 => untyped_ioctl_globals (fun a : Nat => (a : Int)) musl k fd perf_event_ioctls_DISABLE arg s g g2,
   fun fd arg g g2 => untyped_ioctl_globals (fun a : Int => a) musl k fd perf_event_ioctls_REFRESH arg s g g2,
   fun fd arg g g2 => untyped_ioctl_globals (fun a : Nat => (a : Int)) musl k fd perf_event_ioctls_RESET arg s g g2,
   fun fd arg g g2 => untyped_ioctl_globals (fun a : Nat => (a : Int)) musl k fd perf_event_ioctls_PERIOD arg s g g2,
   fun fd arg g g2 => untyped_ioctl_globals (fun a : Int => a) musl k fd perf_event_ioctls_SET_OUTPUT arg s g g2,
   fun fd arg g g2 => untyped_ioctl_globals (fun a : Nat => (a : Int)) musl k fd perf_event_ioctls_SET_FILTER arg s g g2,
   fun fd arg g g2 => untyped_ioctl_globals (fun a : Nat => (a : Int)) musl k fd perf_event_ioctls_ID arg s g g2,
   fun fd arg g g2 => untyped_ioctl_globals (fun a : Nat => (a : Int)) musl k fd perf_event_ioctls_SET_BPF arg s g g2,
   fun fd arg g g2 => untyped_ioctl_globals (fun a : Nat => (a : Int)) musl k fd perf_event_ioctls_PAUSE_OUTPUT arg s g g2,
   fun fd arg g g2 => untyped_ioctl_globals (fun a : Nat => (a : Int)) musl k fd perf_event_ioctls_QUERY_BPF arg s g g2,
   fun fd arg g g2 => untyped_ioctl_globals (fun a : Nat => (a : Int)) musl k fd perf_event_ioctls_MODIFY_ATTRIBUTES arg s g g2⟩

/-- Claim C8: the four control shims with pointer arguments hand the pointer
to the kernel as an opaque address — the trace records the raw address — the
memory after the call is exactly the memory the kernel's single reply
produced, so any mutation of the pointed-to bytes is the kernel's alone, and
the shim itself never reads memory: two calls from states differing only in
memory have the same visible outcome whenever the kernel's reply is the
same. -/
theorem pointer_shims_frame {G : Type} (musl : Bool) (k : Kernel) (fd : Int)
    (s : ProcState G) :
    (∀ ptr : Nat,
        (ioctls.SET_FILTER musl k fd ptr s).2.mem =
          (k.onIoctl fd perf_event_ioctls_SET_FILTER.val (ptr : Int) s.mem).memAfter ∧
        (ioctls.SET_FILTER musl k fd ptr s).2.trace =
          s.trace ++ [KernelEntry.ioctlCall fd perf_event_ioctls_SET_FILTER.val (ptr : Int)] ∧
        (∀ m2 : Nat → Nat,
          k.onIoctl fd perf_event_ioctls_SET_FILTER.val (ptr : Int) m2 =
            k.onIoctl fd perf_event_ioctls_SET_FILTER.val (ptr : Int) s.mem →
          visible (ioctls.SET_FILTER musl k fd ptr { s with mem := m2 }) =
            visible (ioctls.SET_FILTER musl k fd ptr s))) ∧
    (∀ ptr : Nat,
        (ioctls.ID musl k fd ptr s).2.mem =
          (k.onIoctl fd perf_event_ioctls_ID.val (ptr : Int) s.mem).memAfter ∧
        (ioctls.ID musl k fd ptr s).2.trace =
          s.trace ++ [KernelEntry.ioctlCall fd perf_event_ioctls_ID.val (ptr : Int)] ∧
        (∀ m2 : Nat → Nat,
          k.onIoctl fd perf_event_ioctls_ID.val (ptr : Int) m2 =
            k.onIoctl fd perf_event_ioctls_ID.val (ptr : Int) s.mem →
          visible (ioctls.ID musl k fd ptr { s with mem := m2 }) =
            visible (ioctls.ID musl k fd ptr s))) ∧
    (∀ ptr : Nat,
        (ioctls.QUERY_BPF musl k fd ptr s).2.mem =
          (k.onIoctl fd perf_event_ioctls_QUERY_BPF.val (ptr : Int) s.mem).memAfter ∧
        (ioctls.QUERY_BPF musl k fd ptr s).2.trace =
          s.trace ++ [KernelEntry.ioctlCall fd perf_event_ioctls_QUERY_BPF.val (ptr : Int)] ∧
        (∀ m2 : Nat → Nat,
          k.onIoctl fd perf_event_ioctls_QUERY_BPF.val (ptr : Int) m2 =
            k.onIoctl fd perf_event_ioctls_QUERY_BPF.val (ptr : Int) s.mem →
          visible (ioctls.QUERY_BPF musl k fd ptr { s with mem := m2 }) =
            visible (ioctls.QUERY_BPF musl k fd ptr s))) ∧
    (∀ ptr : Nat,
        (ioctls.MODIFY_ATTRIBUTES musl k fd ptr s).2.mem =
          (k.onIoctl fd perf_event_ioctls_MODIFY_ATTRIBUTES.val (ptr : Int) s.mem).memAfter ∧
        (ioctls.MODIFY_ATTRIBUTES musl k fd ptr s).2.trace =
          s.trace ++ [KernelEntry.ioctlCall fd perf_event_ioctls_MODIFY_ATTRIBUTES.val (ptr : Int)] ∧
        (∀ m2 : Nat → Nat,
          k.onIoctl fd perf_event_ioctls_MODIFY_ATTRIBUTES.val (ptr : Int) m2 =
            k.onIoctl fd perf_event_ioctls_MODIFY_ATTRIBUTES.val (ptr : Int) s.mem →
          visible (ioctls.MODIFY_ATTRIBUTES musl k fd ptr { s with mem := m2 }) =
            visible (ioctls.MODIFY_ATTRIBUTES musl k fd ptr s))) :=
  ⟨fun ptr => untyped_ioctl_ptr_frame (fun a : Nat => (a : Int)) musl k fd perf_event_ioctls_SET_FILTER ptr s,
   fun ptr => untyped_ioctl_ptr_frame (fun a : Nat => (a : Int)) musl k fd perf_event_ioctls_ID ptr s,
   fun ptr => untyped_ioctl_ptr_frame (fun a : Nat => (a : Int)) musl k fd perf_event_ioctls_QUERY_BPF ptr s,
   fun ptr => untyped_ioctl_ptr_frame (fun a : Nat => (a : Int)) musl k fd perf_event_ioctls_MODIFY_ATTRIBUTES ptr s⟩

/-- Evaluation of the claim C8 theorem on a concrete call: under `testKernel`
(whose reply ignores memory) the visible outcome of `SET_FILTER` is the same
from two states that differ only in memory. -/
theorem pointer_shims_frame_witness :
    visible (ioctls.SET_FILTER false testKernel 3 8 { testState with mem := fun _ => 1 }) =
      visible (ioctls.SET_FILTER false testKernel 3 8 testState) :=
  ((pointer_shims_frame false testKernel 3 testState).1 8).2.2 (fun _ => 1) rfl

/-- Claim C9: `perf_event_open` itself never writes through the `attrs`
pointer: the address is handed to the kernel unchanged (it appears as the
first syscall argument word in the single trace entry), the memory after the
call is exactly the memory the kernel's reply produced — so any rewrite of
the attribute struct, including its size field, is the kernel's alone — and
the shim itself never reads memory: two calls from states differing only in
memory have the same visible outcome whenever the kernel's response is the
same. -/
theorem perf_event_open_attrs_frame {G : Type} (k : Kernel) (attrs : Nat)
    (pid cpu group_fd : Int) (flags : Nat) (s : ProcState G) :
    (perf_event_open k attrs pid cpu group_fd flags s).2.mem =
      (k.onSyscall (NR_perf_event_open : Int)
        (openArgs attrs pid cpu group_fd flags) s.mem).2 ∧
    (perf_event_open k attrs pid cpu group_fd flags s).2.trace =
      s.trace ++ [KernelEntry.syscall (NR_perf_event_open : Int)
        (openArgs attrs pid cpu group_fd flags)] ∧
    (∀ m2 : Nat → Nat,
      k.onSyscall (NR_perf_event_open : Int)
          (openArgs attrs pid cpu group_fd flags) m2 =
        k.onSyscall (NR_perf_event_open : Int)
          (openArgs attrs pid cpu group_fd flags) s.mem →
      visible (perf_event_open k attrs pid cpu group_fd flags { s with mem := m2 }) =
        visible (perf_event_open k attrs pid cpu group_fd flags s)) := by
  refine ⟨rfl, rfl, ?_⟩
  intro m2 h
  have e1 : perf_event_open k attrs pid cpu group_fd flags { s with mem := m2 } =
      (toCInt (k.onSyscall (NR_perf_event_open : Int)
        (openArgs attrs pid cpu group_fd flags) m2).1,
       { s with
           mem := (k.onSyscall (NR_perf_event_open : Int)
             (openArgs attrs pid cpu group_fd flags) m2).2,
           trace := s.trace ++ [KernelEntry.syscall (NR_perf_event_open : Int)
             (openArgs attrs pid cpu group_fd flags)] }) := rfl
  have e2 : perf_event_open k attrs pid cpu group_fd flags s =
      (toCInt (k.onSyscall (NR_perf_event_open : Int)
        (openArgs attrs pid cpu group_fd flags) s.mem).1,
       { s with
           mem := (k.onSyscall (NR_perf_event_open : Int)
             (openArgs attrs pid cpu group_fd flags) s.mem).2,
           trace := s.trace ++ [KernelEntry.syscall (NR_perf_event_open : Int)
             (openArgs attrs pid cpu group_fd flags)] }) := rfl
  rw [e1, e2, h]

/-- Evaluation of the claim C9 theorem on a concrete call: under `testKernel`
(whose response ignores memory) the visible outcome of `perf_event_open` is
the same from two states that differ only in memory. -/
theorem perf_event_open_attrs_frame_witness :
    visible (perf_event_open testKernel 4096 0 (-1) (-1) 0 { testState with mem := fun _ => 1 }) =
      visible (perf_event_open testKernel 4096 0 (-1) (-1) 0 testState) :=
  (perf_event_open_attrs_frame testKernel 4096 0 (-1) (-1) 0 testState).2.2
    (fun _ => 1) rfl

end PerfEventOpenSys
